import Mathlib

/-!
Shallow embedding of the Auth & Guarded-Resource core of the REST-CRUD-Demo
repository (Express + Firestore).  The definitions translate the JavaScript
source: `API/app.js` (auth guard `validateToken`, `/register`, `/login`, and
the `/items` CRUD endpoints), the `express-validator` chain `itemValidation`,
and the controller variant `createItem`.  Machine floating values that can
only be finite decimals in the claims are modelled by `ℚ`; the JavaScript
`NaN` produced by a failed `parseFloat` is modelled by `none` in
`JNum := Option ℚ`.
-/

set_option autoImplicit false

namespace RestCrud

/-- A JSON scalar as it arrives in a request body: a string, a finite number,
or JSON `null`.  Absent (`undefined`) fields are modelled by `Option JVal`'s
`none` at the use sites. -/
inductive JVal where
  | s (v : String)
  | n (v : ℚ)
  | null
deriving DecidableEq

/-- A JavaScript number that may be `NaN` (`none`). -/
abbrev JNum := Option ℚ

/-- JavaScript truthiness of a possibly-absent request-body field:
`undefined`, `null`, the empty string and `0` are falsy. -/
def truthy : Option JVal → Bool
  | none => false
  | some .null => false
  | some (.s v) => !(v == "")
  | some (.n q) => !(q == 0)

/-- Leading decimal digits of a character list, and the rest. -/
def parseDigits : List Char → List Char × List Char
  | [] => ([], [])
  | c :: cs =>
    if c.isDigit then
      let (d, r) := parseDigits cs
      (c :: d, r)
    else ([], c :: cs)

/-- Value of a digit string read in base 10. -/
def digitsToNat (ds : List Char) : Nat :=
  ds.foldl (fun a c => a * 10 + (c.toNat - 48)) 0

/-- Model of the JavaScript `parseFloat` builtin on a string, restricted to
decimal literals (optional leading whitespace, optional sign, digits with an
optional fractional part); `none` models `NaN`. -/
def parseFloatChars (cs : List Char) : JNum :=
  let cs := cs.dropWhile Char.isWhitespace
  let sgn : ℚ × List Char :=
    match cs with
    | '-' :: r => (-1, r)
    | '+' :: r => (1, r)
    | r => (1, r)
  let (ip, rest) := parseDigits sgn.2
  match rest with
  | '.' :: r =>
    let (fp, _) := parseDigits r
    if ip = [] ∧ fp = [] then none
    else some (sgn.1 * ((digitsToNat ip : ℚ) + (digitsToNat fp : ℚ) / (10 ^ fp.length)))
  | _ => if ip = [] then none else some (sgn.1 * (digitsToNat ip : ℚ))

/-- Model of the JavaScript `parseFloat(x)` applied to a request-body field:
a finite number round-trips, a string is parsed, `null` and `undefined`
give `NaN`. -/
def parseFloat : Option JVal → JNum
  | none => none
  | some .null => none
  | some (.s v) => parseFloatChars v.toList
  | some (.n q) => some q

/-- JavaScript `String.prototype.split(sep)` for a one-character separator:
`"".split(sep)` is `[""]`, and adjacent separators yield empty segments. -/
def splitC (sep : Char) : List Char → List (List Char)
  | [] => [[]]
  | c :: cs =>
    if c = sep then [] :: splitC sep cs
    else
      match splitC sep cs with
      | [] => [[c]]
      | h :: t => (c :: h) :: t

/-- The token payload decoded by `verifyToken` (`jwt.verify`): the identity
signed by `generateToken`. -/
structure TokenPayload where
  userId : Nat
  email : String
deriving DecidableEq

/-- The token segment the guard extracts:
`authHeader && authHeader.split(' ')[1]`, with a missing header, a missing
second segment, or an empty (falsy) segment all yielding no token. -/
def tokenFromHeader (authHeader : Option String) : Option String :=
  match authHeader with
  | none => none
  | some h =>
    match (splitC ' ' h.toList).get? 1 with
    | none => none
    | some [] => none
    | some cs => some (String.mk cs)

/-- Outcome of the `validateToken` middleware. -/
inductive GuardOutcome where
  | reject401
  | reject403
  | pass (user : TokenPayload)
deriving DecidableEq

/-- The `validateToken` middleware of `API/app.js`: no token segment → 401,
failed verification → 403, success → the decoded identity is attached. -/
def validateToken (verifyToken : String → Option TokenPayload)
    (authHeader : Option String) : GuardOutcome :=
  match tokenFromHeader authHeader with
  | none => .reject401
  | some token =>
    match verifyToken token with
    | none => .reject403
    | some decoded => .pass decoded

/-- An HTTP response: a success payload or an error body `\x7b error \x7d`. -/
inductive HttpResp (α : Type) where
  | ok (status : Nat) (payload : α)
  | err (status : Nat) (error : String)
deriving DecidableEq

/-- A protected route: the guard runs first, a rejection short-circuits with
the guard's error response and an untouched store, otherwise the handler runs
with the decoded identity. -/
def runProtected {α σ : Type} (verifyToken : String → Option TokenPayload)
    (authHeader : Option String) (handler : TokenPayload → σ → HttpResp α × σ)
    (st : σ) : HttpResp α × σ :=
  match validateToken verifyToken authHeader with
  | .reject401 => (.err 401 "No token found", st)
  | .reject403 => (.err 403 "Invalid or expired token", st)
  | .pass user => handler user st

/-- A stored `items` document: the fields written by this API. -/
structure ItemDoc where
  name : JVal
  price : JNum
deriving DecidableEq

/-- The `items` Firestore collection: documents keyed by id, plus the
store-side id generator (fresh ids are modelled by a counter). -/
structure ItemStore where
  docs : List (Nat × ItemDoc)
  nextId : Nat
deriving DecidableEq

/-- Every document id was produced by the id generator: the next generated id
is fresh. -/
def freshIds (st : ItemStore) : Bool :=
  st.docs.all (fun p => p.1 < st.nextId)

/-- Model of `itemsCollection.doc(id).get()`: the document stored under `id`. -/
def lookupDoc (st : ItemStore) (id : Nat) : Option ItemDoc :=
  (st.docs.find? (fun p => p.1 == id)).map (·.2)

/-- Model of `itemsCollection.add(doc)`: the store assigns a fresh id, persists the
document and returns the id. -/
def addDoc (st : ItemStore) (d : ItemDoc) : Nat × ItemStore :=
  (st.nextId, ⟨st.docs ++ [(st.nextId, d)], st.nextId + 1⟩)

/-- Model of `docRef.update(data)` after the document was merged: replace the document
stored under `id`. -/
def setDoc (st : ItemStore) (id : Nat) (d : ItemDoc) : ItemStore :=
  ⟨st.docs.map (fun p => if p.1 == id then (id, d) else p), st.nextId⟩

/-- Model of `docRef.delete()`: physically remove the document stored under `id`. -/
def removeDoc (st : ItemStore) (id : Nat) : ItemStore :=
  ⟨st.docs.filter (fun p => !(p.1 == id)), st.nextId⟩

/-- An item request body `\x7b name?, price? \x7d`; `none` is an absent
(`undefined`) field. -/
structure ItemBody where
  name : Option JVal
  price : Option JVal
deriving DecidableEq

/-- The response record `\x7b id, ...doc.data() \x7d` for a single item. -/
structure ItemOut where
  id : Nat
  name : JVal
  price : JNum
deriving DecidableEq

/-- The `POST /items` handler body of `API/app.js`: falsy `name` or `price` →
400, otherwise store `\x7b name, price: parseFloat(price) \x7d` and answer
201 with only the assigned id. -/
def postItems (body : ItemBody) (st : ItemStore) : HttpResp Nat × ItemStore :=
  match body.name, body.price with
  | some name, some price =>
    if truthy (some name) && truthy (some price) then
      let (newId, st2) := addDoc st ⟨name, parseFloat (some price)⟩
      (.ok 201 newId, st2)
    else (.err 400 "Name and price are required", st)
  | _, _ => (.err 400 "Name and price are required", st)

/-- The `GET /items/:id` handler of `API/app.js` (public). -/
def getItemsId (id : Nat) (st : ItemStore) : HttpResp ItemOut × ItemStore :=
  match lookupDoc st id with
  | none => (.err 404 "Item not found", st)
  | some doc => (.ok 200 ⟨id, doc.name, doc.price⟩, st)

/-- The `PUT /items/:id` handler body of `API/app.js`: 404 when the document is
absent, otherwise merge only the fields present in the body (`price` through
`parseFloat`), write, re-read and answer 200 with the full updated record. -/
def putItemsId (id : Nat) (body : ItemBody) (st : ItemStore) :
    HttpResp ItemOut × ItemStore :=
  match lookupDoc st id with
  | none => (.err 404 "Item not found", st)
  | some doc =>
    let newDoc : ItemDoc :=
      { name := match body.name with | none => doc.name | some v => v
        price := match body.price with | none => doc.price | some v => parseFloat (some v) }
    let st2 := setDoc st id newDoc
    match lookupDoc st2 id with
    | some updatedDoc => (.ok 200 ⟨id, updatedDoc.name, updatedDoc.price⟩, st2)
    | none => (.err 500 "Failed to update item", st)

/-- The `DELETE /items/:id` handler body of `API/app.js`: 404 when the document is
absent, otherwise delete and answer 200 with a message. -/
def deleteItemsId (id : Nat) (st : ItemStore) : HttpResp String × ItemStore :=
  match lookupDoc st id with
  | none => (.err 404 "Item not found", st)
  | some _ => (.ok 200 "Item deleted successfully", removeDoc st id)

/-- The guarded route `app.post('/items', validateToken, ...)`. -/
def postItemsRoute (verifyToken : String → Option TokenPayload)
    (authHeader : Option String) (body : ItemBody) (st : ItemStore) :
    HttpResp Nat × ItemStore :=
  runProtected verifyToken authHeader (fun _ s => postItems body s) st

/-- The guarded route `app.put('/items/:id', validateToken, ...)`. -/
def putItemsRoute (verifyToken : String → Option TokenPayload)
    (authHeader : Option String) (id : Nat) (body : ItemBody) (st : ItemStore) :
    HttpResp ItemOut × ItemStore :=
  runProtected verifyToken authHeader (fun _ s => putItemsId id body s) st

/-- The guarded route `app.delete('/items/:id', validateToken, ...)`. -/
def deleteItemsRoute (verifyToken : String → Option TokenPayload)
    (authHeader : Option String) (id : Nat) (st : ItemStore) :
    HttpResp String × ItemStore :=
  runProtected verifyToken authHeader (fun _ s => deleteItemsId id s) st

/-- One entry of `validationResult(req).array()`: the offending field and its
`withMessage` text. -/
structure FieldError where
  path : String
  msg : String
deriving DecidableEq

/-- The `notEmpty()` check on a body field: express-validator coerces an absent or
`null` field to the empty string; a finite number stringifies non-empty. -/
def vNotEmpty : Option JVal → Bool
  | none => false
  | some .null => false
  | some (.s v) => !(v == "")
  | some (.n _) => true

/-- Whitespace stripped from both ends of a character list. -/
def trimChars (cs : List Char) : List Char :=
  ((cs.dropWhile Char.isWhitespace).reverse.dropWhile Char.isWhitespace).reverse

/-- The `trim()` sanitizer on a body field. -/
def trimVal : Option JVal → Option JVal
  | some (.s v) => some (.s (String.mk (trimChars v.toList)))
  | x => x

/-- The `isLength` check on a body field (absent and `null` coerce
to the empty string; a finite number stringifies to 1..100 characters). -/
def vLenBetween (lo hi : Nat) : Option JVal → Bool
  | some (.s v) => lo ≤ v.length && v.length ≤ hi
  | some (.n _) => true
  | _ => lo = 0

/-- A string matching validator.js `isNumeric` (no symbols off): an optional
sign, then digits with at most one decimal point and at least one digit
after it. -/
def isNumericStr (s : String) : Bool :=
  let cs :=
    match s.toList with
    | '+' :: r => r
    | '-' :: r => r
    | r => r
  match splitC '.' cs with
  | [ds] => !ds.isEmpty && ds.all Char.isDigit
  | [as, bs] => as.all Char.isDigit && !bs.isEmpty && bs.all Char.isDigit
  | _ => false

/-- The `isNumeric()` check on a body field. -/
def vIsNumeric : Option JVal → Bool
  | some (.n _) => true
  | some (.s v) => isNumericStr v
  | _ => false

/-- A string accepted by validator.js `isFloat`: an optional sign and a
decimal literal with digits on at least one side of the point. -/
def isFloatStr (s : String) : Bool :=
  let cs :=
    match s.toList with
    | '+' :: r => r
    | '-' :: r => r
    | r => r
  match splitC '.' cs with
  | [ds] => !ds.isEmpty && ds.all Char.isDigit
  | [as, bs] => (!as.isEmpty || !bs.isEmpty) && as.all Char.isDigit && bs.all Char.isDigit
  | _ => false

/-- The `isFloat` check with a minimum, on a body field. -/
def vIsFloatMin (m : ℚ) : Option JVal → Bool
  | some (.n q) => decide (m ≤ q)
  | some (.s v) =>
    if isFloatStr v then
      match parseFloatChars v.toList with
      | some q => decide (m ≤ q)
      | none => false
    else false
  | _ => false

/-- The `itemValidation` chain of `validators/itemValidator.js`: every
validator of both chains runs (no bail), and all failures are collected in
chain order. -/
def itemValidationErrors (body : ItemBody) : List FieldError :=
  (if vNotEmpty body.name then [] else [⟨"name", "Name is required"⟩])
  ++ (if vLenBetween 1 100 (trimVal body.name) then []
      else [⟨"name", "Name must be between 1 and 100 characters"⟩])
  ++ (if vNotEmpty body.price then [] else [⟨"price", "Price is required"⟩])
  ++ (if vIsNumeric body.price then [] else [⟨"price", "Price must be a number"⟩])
  ++ (if vIsFloatMin 0 body.price then []
      else [⟨"price", "Price must be a positive number"⟩])

/-- Response of the `createItem` controller of `controllers/items.js`. -/
inductive CreateItemResp where
  | created (id : Nat)
  | badRequest (errors : List FieldError)
deriving DecidableEq

/-- HTTP status of a `createItem` response. -/
def CreateItemResp.status : CreateItemResp → Nat
  | .created _ => 201
  | .badRequest _ => 400

/-- The `createItem` controller of `controllers/items.js`: a non-empty
`validationResult` answers 400 with the error array and touches nothing,
otherwise the item is persisted and 201 carries the new id. -/
def createItem (body : ItemBody) (st : ItemStore) : CreateItemResp × ItemStore :=
  let validationErrors := itemValidationErrors body
  if !validationErrors.isEmpty then (.badRequest validationErrors, st)
  else
    let (itemId, st2) := addDoc st ⟨body.name.getD .null, parseFloat body.price⟩
    (.created itemId, st2)

/-- A stored `users` document: the fields written by `/register`. -/
structure UserDoc where
  email : String
  password : String
  createdAt : String
deriving DecidableEq

/-- The `users` Firestore collection with its id generator. -/
structure UserStore where
  docs : List (Nat × UserDoc)
  nextId : Nat
deriving DecidableEq

/-- A `/register` or `/login` body; `none` is an absent field. -/
structure AuthBody where
  email : Option String
  password : Option String
deriving DecidableEq

/-- The `user` object of a successful auth response: only id and email. -/
structure UserOut where
  id : Nat
  email : String
deriving DecidableEq

/-- Body of a successful `/register` or `/login` response. -/
structure AuthSuccess where
  message : String
  token : String
  user : UserOut
deriving DecidableEq

/-- A character allowed by the `[^\s@]` classes of the email pattern. -/
def okEmailChar (c : Char) : Bool :=
  !c.isWhitespace && !(c == '@')

/-- Model of `emailRegex.test(email)` for the pattern of `API/app.js`: one `@`, a
non-empty local part, and a domain part with a dot that has characters on
both sides, no whitespace or further `@` anywhere. -/
def emailRegexTest (email : String) : Bool :=
  match splitC '@' email.toList with
  | [a, b] =>
    !a.isEmpty && a.all okEmailChar && b.all okEmailChar
      && ((b.drop 1).dropLast.contains '.')
  | _ => false

/-- Model of the user query by email (`usersCollection.where`) reduced to the first
matching document (the login handler reads `snapshot.docs[0]`). -/
def findByEmail (st : UserStore) (email : String) : Option (Nat × UserDoc) :=
  st.docs.find? (fun p => p.2.email == email)

/-- Result of the `/register` handler: the response, the resulting `users`
collection, and whether `hashPassword` was invoked. -/
structure RegisterResult where
  resp : HttpResp AuthSuccess
  users : UserStore
  hashed : Bool
deriving DecidableEq

/-- The `POST /register` handler of `API/app.js`: field presence, email
format and password length are checked first; a duplicate email answers 409
before any hashing; otherwise the hashed user is stored and 201 returns a
token and `\x7b id, email \x7d`. -/
def postRegister (hashPassword : String → String)
    (generateToken : Nat → String → String) (now : String)
    (body : AuthBody) (st : UserStore) : RegisterResult :=
  match body.email, body.password with
  | some email, some password =>
    if email == "" || password == "" then
      ⟨.err 400 "Email and password are required", st, false⟩
    else if !(emailRegexTest email) then
      ⟨.err 400 "Invalid email format", st, false⟩
    else if password.length < 6 then
      ⟨.err 400 "Password must be at least 6 characters long", st, false⟩
    else if (findByEmail st email).isSome then
      ⟨.err 409 "User with this email already exists", st, false⟩
    else
      let hashedPassword := hashPassword password
      let newId := st.nextId
      let st2 : UserStore := ⟨st.docs ++ [(newId, ⟨email, hashedPassword, now⟩)], st.nextId + 1⟩
      let token := generateToken newId email
      ⟨.ok 201 ⟨"User registered successfully", token, ⟨newId, email⟩⟩, st2, true⟩
  | _, _ => ⟨.err 400 "Email and password are required", st, false⟩

/-- The `POST /login` handler of `API/app.js`: missing fields → 400, unknown
email → 401, wrong password → 401 with the same generic message, otherwise
200 with a token and `\x7b id, email \x7d`.  The handler never mutates the
store. -/
def postLogin (comparePassword : String → String → Bool)
    (generateToken : Nat → String → String)
    (body : AuthBody) (st : UserStore) : HttpResp AuthSuccess :=
  match body.email, body.password with
  | some email, some password =>
    if email == "" || password == "" then
      .err 400 "Email and password are required"
    else
      match findByEmail st email with
      | none => .err 401 "Invalid email or password"
      | some (uid, user) =>
        if !(comparePassword password user.password) then
          .err 401 "Invalid email or password"
        else
          .ok 200 ⟨"Login successful", generateToken uid user.email, ⟨uid, user.email⟩⟩
  | _, _ => .err 400 "Email and password are required"

/-! Store lemmas used by the endpoint theorems. -/

theorem find?_map_set_self (l : List (Nat × ItemDoc)) (id : Nat) (d : ItemDoc)
    (h : (l.find? (fun p => p.1 == id)).isSome = true) :
    (l.map (fun p => if p.1 == id then (id, d) else p)).find? (fun p => p.1 == id)
      = some (id, d) := by
  induction l with
  | nil => simp [List.find?] at h
  | cons q l ih =>
    by_cases hq : q.1 = id
    · simp [hq]
    · have hb : (q.1 == id) = false := by simp [hq]
      simp only [List.map_cons, hb, Bool.false_eq_true, if_false]
      rw [List.find?_cons_of_neg _ (by simp [hb]), ih]
      rw [List.find?_cons_of_neg _ (by simp [hb])] at h
      exact h

theorem find?_map_set_ne (l : List (Nat × ItemDoc)) (id j : Nat) (d : ItemDoc)
    (hj : ¬ j = id) :
    (l.map (fun p => if p.1 == id then (id, d) else p)).find? (fun p => p.1 == j)
      = l.find? (fun p => p.1 == j) := by
  induction l with
  | nil => rfl
  | cons q l ih =>
    by_cases hq : q.1 = id
    · have h1 : ((id, d).1 == j) = false := by simp [Ne.symm hj]
      have h2 : (q.1 == j) = false := by simp [hq, Ne.symm hj]
      simp only [List.map_cons, hq, beq_self_eq_true, if_true]
      rw [List.find?_cons_of_neg _ (by simp [h1]),
        List.find?_cons_of_neg _ (by simp [h2]), ih]
    · have hb : (q.1 == id) = false := by simp [hq]
      simp only [List.map_cons, hb, Bool.false_eq_true, if_false]
      by_cases hqj : q.1 = j
      · rw [List.find?_cons_of_pos _ (by simp [hqj]),
          List.find?_cons_of_pos _ (by simp [hqj])]
      · rw [List.find?_cons_of_neg _ (by simp [hqj]),
          List.find?_cons_of_neg _ (by simp [hqj]), ih]

theorem find?_filter_self (l : List (Nat × ItemDoc)) (id : Nat) :
    (l.filter (fun p => !(p.1 == id))).find? (fun p => p.1 == id) = none := by
  rw [List.find?_eq_none]
  intro x hx
  have := (List.mem_filter.1 hx).2
  simpa using this

theorem find?_filter_ne (l : List (Nat × ItemDoc)) (id j : Nat) (hj : ¬ j = id) :
    (l.filter (fun p => !(p.1 == id))).find? (fun p => p.1 == j)
      = l.find? (fun p => p.1 == j) := by
  induction l with
  | nil => rfl
  | cons q l ih =>
    by_cases hq : q.1 = id
    · have h2 : (q.1 == j) = false := by simp [hq, Ne.symm hj]
      rw [List.filter_cons_of_neg (by simp [hq]),
        List.find?_cons_of_neg _ (by simp [h2]), ih]
    · rw [List.filter_cons_of_pos (by simp [hq])]
      by_cases hqj : q.1 = j
      · rw [List.find?_cons_of_pos _ (by simp [hqj]),
          List.find?_cons_of_pos _ (by simp [hqj])]
      · rw [List.find?_cons_of_neg _ (by simp [hqj]),
          List.find?_cons_of_neg _ (by simp [hqj]), ih]

theorem find?_append_fresh (l : List (Nat × ItemDoc)) (n : Nat) (d : ItemDoc)
    (h : ∀ p ∈ l, p.1 < n) :
    (l ++ [(n, d)]).find? (fun p => p.1 == n) = some (n, d) := by
  induction l with
  | nil => simp [List.find?]
  | cons q l ih =>
    have hq : ¬ q.1 = n := Nat.ne_of_lt (h q (List.mem_cons_self q l))
    rw [List.cons_append, List.find?_cons_of_neg _ (by simp [hq])]
    exact ih (fun p hp => h p (List.mem_cons_of_mem q hp))

theorem lookupDoc_setDoc_self (st : ItemStore) (id : Nat) (d doc : ItemDoc)
    (h : lookupDoc st id = some doc) :
    lookupDoc (setDoc st id d) id = some d := by
  have hs : (st.docs.find? (fun p => p.1 == id)).isSome = true := by
    unfold lookupDoc at h
    cases hf : st.docs.find? (fun p => p.1 == id) with
    | none => rw [hf] at h; simp at h
    | some q => rfl
  unfold lookupDoc setDoc
  rw [find?_map_set_self st.docs id d hs]
  rfl

theorem lookupDoc_setDoc_ne (st : ItemStore) (id j : Nat) (d : ItemDoc)
    (hj : ¬ j = id) :
    lookupDoc (setDoc st id d) j = lookupDoc st j := by
  unfold lookupDoc setDoc
  rw [find?_map_set_ne st.docs id j d hj]

theorem lookupDoc_removeDoc_self (st : ItemStore) (id : Nat) :
    lookupDoc (removeDoc st id) id = none := by
  unfold lookupDoc removeDoc
  rw [find?_filter_self st.docs id]
  rfl

theorem lookupDoc_removeDoc_ne (st : ItemStore) (id j : Nat) (hj : ¬ j = id) :
    lookupDoc (removeDoc st id) j = lookupDoc st j := by
  unfold lookupDoc removeDoc
  rw [find?_filter_ne st.docs id j hj]

theorem lookupDoc_addDoc (st : ItemStore) (d : ItemDoc)
    (h : freshIds st = true) :
    lookupDoc (addDoc st d).2 st.nextId = some d := by
  unfold lookupDoc addDoc
  rw [find?_append_fresh st.docs st.nextId d]
  · rfl
  · intro p hp
    have := List.all_eq_true.1 h p hp
    simpa using this

/-! Lemmas on the JavaScript split used by the auth guard. -/

theorem splitC_append (sep : Char) (w t : List Char) (hw : sep ∉ w) :
    splitC sep (w ++ sep :: t) = w :: splitC sep t := by
  induction w with
  | nil => simp [splitC]
  | cons c w ih =>
    have hc : ¬ c = sep := fun h => hw (by simp [h])
    have hw2 : sep ∉ w := fun h => hw (by simp [h])
    show splitC sep (c :: (w ++ sep :: t)) = (c :: w) :: splitC sep t
    rw [splitC, if_neg hc, ih hw2]

theorem splitC_of_not_mem (sep : Char) (t : List Char) (h : sep ∉ t) :
    splitC sep t = [t] := by
  induction t with
  | nil => rfl
  | cons c t ih =>
    have hc : ¬ c = sep := fun hx => h (by simp [hx])
    have ht : sep ∉ t := fun hx => h (by simp [hx])
    rw [splitC, if_neg hc, ih ht]

/-! Concrete fixtures used by the witnesses. -/

/-- A token verifier accepting exactly the token string `tok123`. -/
def verifyTok0 : String → Option TokenPayload :=
  fun t => if t == "tok123" then some ⟨7, "a@b.com"⟩ else none

/-- A one-item store whose id generator is ahead of every stored id. -/
def itemStore0 : ItemStore := ⟨[(0, ⟨.s "A", some 1⟩)], 1⟩

/-- C1: on the protected item routes, a request with no token segment is
rejected 401 and the handler never runs; a present token that fails
verification is rejected 403 and the handler never runs; a verified token
attaches the decoded identity and processing continues into the handler. -/
theorem guard_gate_c1 {α σ : Type} (verifyToken : String → Option TokenPayload)
    (hdr : Option String) :
    (tokenFromHeader hdr = none →
      ∀ (handler : TokenPayload → σ → HttpResp α × σ) (st : σ),
        runProtected verifyToken hdr handler st = (.err 401 "No token found", st))
    ∧ (∀ t, tokenFromHeader hdr = some t → verifyToken t = none →
      ∀ (handler : TokenPayload → σ → HttpResp α × σ) (st : σ),
        runProtected verifyToken hdr handler st = (.err 403 "Invalid or expired token", st))
    ∧ (∀ t d, tokenFromHeader hdr = some t → verifyToken t = some d →
      ∀ (handler : TokenPayload → σ → HttpResp α × σ) (st : σ),
        runProtected verifyToken hdr handler st = handler d st) := by
  refine ⟨?_, ?_, ?_⟩
  · intro h handler st
    simp [runProtected, validateToken, h]
  · intro t h1 h2 handler st
    simp [runProtected, validateToken, h1, h2]
  · intro t d h1 h2 handler st
    simp [runProtected, validateToken, h1, h2]

/-- Witness for C1 at concrete headers: a missing header, a bad token under
a bearer scheme, and the accepted token. -/
theorem guard_gate_c1_witness :
    runProtected (α := Nat) (σ := Nat) verifyTok0 none (fun _ s => (.ok 200 0, s)) 0
      = (.err 401 "No token found", 0)
    ∧ runProtected (α := Nat) (σ := Nat) verifyTok0 (some "Bearer bad")
        (fun _ s => (.ok 200 0, s)) 0 = (.err 403 "Invalid or expired token", 0)
    ∧ runProtected (α := Nat) (σ := Nat) verifyTok0 (some "Bearer tok123")
        (fun d s => (.ok 200 d.userId, s)) 0 = (.ok 200 7, 0) := by
  refine ⟨?_, ?_, ?_⟩
  · exact (guard_gate_c1 verifyTok0 none).1 rfl _ 0
  · exact (guard_gate_c1 verifyTok0 (some "Bearer bad")).2.1 "bad" (by decide) (by decide) _ 0
  · exact (guard_gate_c1 verifyTok0 (some "Bearer tok123")).2.2 "tok123" ⟨7, "a@b.com"⟩
      (by decide) (by decide) _ 0

/-- C9: the guard splits the header on spaces and takes the second segment
without checking the scheme word: for a space-free scheme `w` and a valid
space-free token `t`, the header `w ++ " " ++ t` extracts exactly `t` and
behaves exactly like `Bearer t`; a bare token with no space yields 401. -/
theorem guard_scheme_c9 (verifyToken : String → Option TokenPayload) (w t : String)
    (hw : ' ' ∉ w.data) (ht : ' ' ∉ t.data) (hne : ¬ t = "") :
    tokenFromHeader (some (w ++ " " ++ t)) = some t
    ∧ validateToken verifyToken (some (w ++ " " ++ t))
        = validateToken verifyToken (some ("Bearer " ++ t))
    ∧ validateToken verifyToken (some t) = .reject401 := by
  have hdata : (w ++ " " ++ t).toList = w.data ++ ' ' :: t.data := by
    show (w ++ " " ++ t).data = w.data ++ ' ' :: t.data
    rw [String.data_append, String.data_append, List.append_assoc]
    rfl
  have key : splitC ' ' (w ++ " " ++ t).toList = [w.data, t.data] := by
    rw [hdata, splitC_append ' ' w.data t.data hw, splitC_of_not_mem ' ' t.data ht]
  have hdata2 : ("Bearer " ++ t).toList = "Bearer".data ++ ' ' :: t.data := by
    show ("Bearer " ++ t).data = "Bearer".data ++ ' ' :: t.data
    rw [String.data_append]
    rfl
  have key2 : splitC ' ' ("Bearer " ++ t).toList = ["Bearer".data, t.data] := by
    rw [hdata2, splitC_append ' ' "Bearer".data t.data (by decide),
      splitC_of_not_mem ' ' t.data ht]
  have htd : t.data ≠ [] := by
    intro h
    exact hne (String.ext (h.trans rfl))
  have hmk : String.mk t.data = t := String.ext rfl
  cases hl : t.data with
  | nil => exact absurd hl htd
  | cons c cs =>
    refine ⟨?_, ?_, ?_⟩
    · show (match (splitC ' ' (w ++ " " ++ t).toList).get? 1 with
        | none => none
        | some [] => none
        | some cs => some (String.mk cs)) = some t
      rw [key, hl]
      show some (String.mk (c :: cs)) = some t
      rw [← hl, hmk]
    · show (match (match (splitC ' ' (w ++ " " ++ t).toList).get? 1 with
          | none => none
          | some [] => none
          | some cs => some (String.mk cs)) with
        | none => GuardOutcome.reject401
        | some token => match verifyToken token with
          | none => GuardOutcome.reject403
          | some decoded => GuardOutcome.pass decoded)
        = (match (match (splitC ' ' ("Bearer " ++ t).toList).get? 1 with
          | none => none
          | some [] => none
          | some cs => some (String.mk cs)) with
        | none => GuardOutcome.reject401
        | some token => match verifyToken token with
          | none => GuardOutcome.reject403
          | some decoded => GuardOutcome.pass decoded)
      rw [key, key2, hl]
      rfl
    · show (match (match (splitC ' ' t.toList).get? 1 with
          | none => none
          | some [] => none
          | some cs => some (String.mk cs)) with
        | none => GuardOutcome.reject401
        | some token => match verifyToken token with
          | none => GuardOutcome.reject403
          | some decoded => GuardOutcome.pass decoded)
        = GuardOutcome.reject401
      have hsp : splitC ' ' t.toList = [t.data] := splitC_of_not_mem ' ' t.data ht
      rw [hsp]
      rfl

/-- Witness for C9: the header `Basic tok123` is accepted exactly like
`Bearer tok123`, and the bare token is rejected 401. -/
theorem guard_scheme_c9_witness :
    tokenFromHeader (some ("Basic" ++ " " ++ "tok123")) = some "tok123"
    ∧ validateToken verifyTok0 (some ("Basic" ++ " " ++ "tok123"))
        = validateToken verifyTok0 (some ("Bearer " ++ "tok123"))
    ∧ validateToken verifyTok0 (some "tok123") = .reject401 :=
  guard_scheme_c9 verifyTok0 "Basic" "tok123" (by decide) (by decide) (by decide)

/-- C2: on `PUT /items/:id` with a valid token, when the id exists only the
fields present in the body are overwritten (`price` through `parseFloat`),
absent fields keep their prior value, the 200 response is the full
post-update record with its id, and every other id is untouched; when the id
does not exist the response is 404 and no write occurs. -/
theorem put_merge_c2 (verifyToken : String → Option TokenPayload) (hdr : Option String)
    (u : TokenPayload) (hguard : validateToken verifyToken hdr = .pass u)
    (id : Nat) (body : ItemBody) (st : ItemStore) :
    (∀ doc, lookupDoc st id = some doc →
      (putItemsRoute verifyToken hdr id body st).1
          = .ok 200 ⟨id,
              match body.name with | none => doc.name | some v => v,
              match body.price with | none => doc.price | some v => parseFloat (some v)⟩
      ∧ lookupDoc (putItemsRoute verifyToken hdr id body st).2 id
          = some ⟨match body.name with | none => doc.name | some v => v,
              match body.price with | none => doc.price | some v => parseFloat (some v)⟩
      ∧ ∀ j, ¬ j = id →
          lookupDoc (putItemsRoute verifyToken hdr id body st).2 j = lookupDoc st j)
    ∧ (lookupDoc st id = none →
        putItemsRoute verifyToken hdr id body st = (.err 404 "Item not found", st)) := by
  have hroute : putItemsRoute verifyToken hdr id body st = putItemsId id body st := by
    unfold putItemsRoute runProtected
    rw [hguard]
  refine ⟨?_, ?_⟩
  · intro doc hdoc
    have hset : lookupDoc (setDoc st id
        ⟨match body.name with | none => doc.name | some v => v,
         match body.price with | none => doc.price | some v => parseFloat (some v)⟩) id
        = some ⟨match body.name with | none => doc.name | some v => v,
            match body.price with | none => doc.price | some v => parseFloat (some v)⟩ :=
      lookupDoc_setDoc_self st id _ doc hdoc
    refine ⟨?_, ?_, ?_⟩
    · rw [hroute]
      unfold putItemsId
      rw [hdoc]
      simp only [hset]
    · rw [hroute]
      unfold putItemsId
      rw [hdoc]
      simp only [hset]
    · intro j hj
      rw [hroute]
      unfold putItemsId
      rw [hdoc]
      simp only [hset]
      exact lookupDoc_setDoc_ne st id j _ hj
  · intro hnone
    rw [hroute]
    unfold putItemsId
    rw [hnone]

/-- Witness for C2: for the stored item `(name A, price 1)`, the body
supplying only `price 2` yields 200 with `(name A, price 2)`, and an unknown
id yields 404 without a write. -/
theorem put_merge_c2_witness :
    (putItemsRoute verifyTok0 (some "Bearer tok123") 0 ⟨none, some (.n 2)⟩ itemStore0).1
      = .ok 200 ⟨0, .s "A", some 2⟩
    ∧ putItemsRoute verifyTok0 (some "Bearer tok123") 5 ⟨none, some (.n 2)⟩ itemStore0
      = (.err 404 "Item not found", itemStore0) := by
  have h := (put_merge_c2 verifyTok0 (some "Bearer tok123") ⟨7, "a@b.com"⟩ (by decide) 0
    ⟨none, some (.n 2)⟩ itemStore0).1 ⟨.s "A", some 1⟩ (by decide)
  have h4 := (put_merge_c2 verifyTok0 (some "Bearer tok123") ⟨7, "a@b.com"⟩ (by decide) 5
    ⟨none, some (.n 2)⟩ itemStore0).2 (by decide)
  exact ⟨h.1, h4⟩

/-- C7: `DELETE /items/:id` with a valid token checks existence first: an
existing id is physically removed with a 200 message (other ids untouched),
an absent id yields 404 with an unchanged store, and repeating the same
delete after a success yields 404. -/
theorem delete_twice_c7 (verifyToken : String → Option TokenPayload) (hdr : Option String)
    (u : TokenPayload) (hguard : validateToken verifyToken hdr = .pass u)
    (id : Nat) (st : ItemStore) :
    (∀ doc, lookupDoc st id = some doc →
      (deleteItemsRoute verifyToken hdr id st).1 = .ok 200 "Item deleted successfully"
      ∧ lookupDoc (deleteItemsRoute verifyToken hdr id st).2 id = none
      ∧ (∀ j, ¬ j = id →
          lookupDoc (deleteItemsRoute verifyToken hdr id st).2 j = lookupDoc st j)
      ∧ deleteItemsRoute verifyToken hdr id (deleteItemsRoute verifyToken hdr id st).2
          = (.err 404 "Item not found", (deleteItemsRoute verifyToken hdr id st).2))
    ∧ (lookupDoc st id = none →
        deleteItemsRoute verifyToken hdr id st = (.err 404 "Item not found", st)) := by
  have hroute : ∀ s, deleteItemsRoute verifyToken hdr id s = deleteItemsId id s := by
    intro s
    unfold deleteItemsRoute runProtected
    rw [hguard]
  refine ⟨?_, ?_⟩
  · intro doc hdoc
    have hres : deleteItemsRoute verifyToken hdr id st
        = (.ok 200 "Item deleted successfully", removeDoc st id) := by
      rw [hroute]
      unfold deleteItemsId
      rw [hdoc]
    refine ⟨?_, ?_, ?_, ?_⟩
    · rw [hres]
    · rw [hres]
      exact lookupDoc_removeDoc_self st id
    · intro j hj
      rw [hres]
      exact lookupDoc_removeDoc_ne st id j hj
    · rw [hres, hroute]
      unfold deleteItemsId
      rw [lookupDoc_removeDoc_self st id]
  · intro hnone
    rw [hroute]
    unfold deleteItemsId
    rw [hnone]

/-- Witness for C7: deleting the stored id 0 answers 200 and repeating the
same delete answers 404; deleting the unknown id 5 answers 404 untouched. -/
theorem delete_twice_c7_witness :
    (deleteItemsRoute verifyTok0 (some "Bearer tok123") 0 itemStore0).1
      = .ok 200 "Item deleted successfully"
    ∧ deleteItemsRoute verifyTok0 (some "Bearer tok123") 0
        (deleteItemsRoute verifyTok0 (some "Bearer tok123") 0 itemStore0).2
      = (.err 404 "Item not found",
         (deleteItemsRoute verifyTok0 (some "Bearer tok123") 0 itemStore0).2)
    ∧ deleteItemsRoute verifyTok0 (some "Bearer tok123") 5 itemStore0
      = (.err 404 "Item not found", itemStore0) := by
  have h := (delete_twice_c7 verifyTok0 (some "Bearer tok123") ⟨7, "a@b.com"⟩ (by decide) 0
    itemStore0).1 ⟨.s "A", some 1⟩ (by decide)
  have h4 := (delete_twice_c7 verifyTok0 (some "Bearer tok123") ⟨7, "a@b.com"⟩ (by decide) 5
    itemStore0).2 (by decide)
  exact ⟨h.1, h.2.2.2, h4⟩

/-- C8: an accepted `POST /items` with a valid token answers 201 carrying
only the store-assigned id, and a subsequent `GET /items/:id` on that id
answers 200 with the submitted name and the submitted price as the parsed
floating value. -/
theorem post_get_roundtrip_c8 (verifyToken : String → Option TokenPayload)
    (hdr : Option String) (u : TokenPayload)
    (hguard : validateToken verifyToken hdr = .pass u)
    (name price : JVal) (st : ItemStore)
    (hn : truthy (some name) = true) (hp : truthy (some price) = true)
    (hfresh : freshIds st = true) :
    postItemsRoute verifyToken hdr ⟨some name, some price⟩ st
      = (.ok 201 st.nextId,
         ⟨st.docs ++ [(st.nextId, ⟨name, parseFloat (some price)⟩)], st.nextId + 1⟩)
    ∧ (getItemsId st.nextId
        (postItemsRoute verifyToken hdr ⟨some name, some price⟩ st).2).1
      = .ok 200 ⟨st.nextId, name, parseFloat (some price)⟩ := by
  have hroute : postItemsRoute verifyToken hdr ⟨some name, some price⟩ st
      = postItems ⟨some name, some price⟩ st := by
    unfold postItemsRoute runProtected
    rw [hguard]
  have hpost : postItems ⟨some name, some price⟩ st
      = (.ok 201 st.nextId,
         ⟨st.docs ++ [(st.nextId, ⟨name, parseFloat (some price)⟩)], st.nextId + 1⟩) := by
    simp [postItems, addDoc, hn, hp]
  have hlook : lookupDoc (addDoc st ⟨name, parseFloat (some price)⟩).2 st.nextId
      = some ⟨name, parseFloat (some price)⟩ :=
    lookupDoc_addDoc st ⟨name, parseFloat (some price)⟩ hfresh
  refine ⟨by rw [hroute, hpost], ?_⟩
  rw [hroute, hpost]
  unfold getItemsId
  rw [show (⟨st.docs ++ [(st.nextId, ⟨name, parseFloat (some price)⟩)], st.nextId + 1⟩ : ItemStore)
      = (addDoc st ⟨name, parseFloat (some price)⟩).2 from rfl, hlook]

/-- Witness for C8: posting `(name Laptop, price 6000)` with a valid token
answers 201 with id 1, and getting id 1 answers the full record. -/
theorem post_get_roundtrip_c8_witness :
    postItemsRoute verifyTok0 (some "Bearer tok123")
        ⟨some (.s "Laptop"), some (.n 6000)⟩ itemStore0
      = (.ok 201 1, ⟨[(0, ⟨.s "A", some 1⟩), (1, ⟨.s "Laptop", some 6000⟩)], 2⟩)
    ∧ (getItemsId 1 (postItemsRoute verifyTok0 (some "Bearer tok123")
        ⟨some (.s "Laptop"), some (.n 6000)⟩ itemStore0).2).1
      = .ok 200 ⟨1, .s "Laptop", some 6000⟩ := by
  have h := post_get_roundtrip_c8 verifyTok0 (some "Bearer tok123") ⟨7, "a@b.com"⟩
    (by decide) (.s "Laptop") (.n 6000) itemStore0 (by decide) (by decide) (by decide)
  exact ⟨h.1, h.2⟩

/-- Counterexample to C3 on `API/app.js`: with a valid token, `POST /items`
accepts `(name A, price -5)` (201) and stores the negative price, and
`PUT /items/:id` accepts `(name empty, price -1)` (200) and stores both the
empty name and the negative price — so not every accepted mutation keeps
`price >= 0` and the name non-empty. -/
theorem items_invariant_c3_counterexample :
    (postItemsRoute verifyTok0 (some "Bearer tok123")
        ⟨some (.s "A"), some (.n (-5))⟩ ⟨[], 0⟩).1 = .ok 201 0
    ∧ lookupDoc (postItemsRoute verifyTok0 (some "Bearer tok123")
        ⟨some (.s "A"), some (.n (-5))⟩ ⟨[], 0⟩).2 0 = some ⟨.s "A", some (-5)⟩
    ∧ (putItemsRoute verifyTok0 (some "Bearer tok123") 0
        ⟨some (.s ""), some (.n (-1))⟩ itemStore0).1 = .ok 200 ⟨0, .s "", some (-1)⟩
    ∧ lookupDoc (putItemsRoute verifyTok0 (some "Bearer tok123") 0
        ⟨some (.s ""), some (.n (-1))⟩ itemStore0).2 0 = some ⟨.s "", some (-1)⟩
    ∧ ¬ (0 : ℚ) ≤ (-5 : ℚ) := by
  decide

/-- C3 amended: every request accepted (201) by `POST /items` stores an item
whose name is the submitted truthy value — in particular not the empty
string and not null — and whose price is `parseFloat` of the submitted
price; non-negativity of the price is not enforced, and `PUT /items/:id`
performs no validation at all. -/
theorem items_invariant_c3_amended (verifyToken : String → Option TokenPayload)
    (hdr : Option String) (u : TokenPayload)
    (hguard : validateToken verifyToken hdr = .pass u)
    (body : ItemBody) (st : ItemStore) (id2 : Nat)
    (hfresh : freshIds st = true)
    (hacc : (postItemsRoute verifyToken hdr body st).1 = .ok 201 id2) :
    truthy body.name = true
    ∧ truthy body.price = true
    ∧ lookupDoc (postItemsRoute verifyToken hdr body st).2 id2
        = some ⟨body.name.getD .null, parseFloat body.price⟩
    ∧ ¬ body.name.getD .null = .s ""
    ∧ ¬ body.name.getD .null = .null := by
  have hroute : postItemsRoute verifyToken hdr body st = postItems body st := by
    unfold postItemsRoute runProtected
    rw [hguard]
  rw [hroute] at hacc
  obtain ⟨bn, bp⟩ := body
  cases bn with
  | none => simp [postItems] at hacc
  | some nm =>
    cases bp with
    | none => simp [postItems] at hacc
    | some pr =>
      cases hT : truthy (some nm) with
      | false => simp [postItems, hT] at hacc
      | true =>
        cases hP : truthy (some pr) with
        | false => simp [postItems, hT, hP] at hacc
        | true =>
          have hres : postItems ⟨some nm, some pr⟩ st
              = (.ok 201 st.nextId,
                 ⟨st.docs ++ [(st.nextId, ⟨nm, parseFloat (some pr)⟩)], st.nextId + 1⟩) := by
            simp [postItems, addDoc, hT, hP]
          rw [hres] at hacc
          have hid : id2 = st.nextId := by
            have := hacc
            simp only [HttpResp.ok.injEq] at this
            exact this.2.symm
          subst hid
          refine ⟨rfl, rfl, ?_, ?_, ?_⟩
          · rw [hroute, hres]
            exact lookupDoc_addDoc st ⟨nm, parseFloat (some pr)⟩ hfresh
          · cases nm <;> simp_all [truthy]
          · cases nm <;> simp_all [truthy]

/-- Witness for the amended C3: an accepted creation of `(name X, price 3)`
stores exactly that truthy name. -/
theorem items_invariant_c3_amended_witness :
    truthy (some (.s "X")) = true
    ∧ truthy (some (.n 3)) = true
    ∧ lookupDoc (postItemsRoute verifyTok0 (some "Bearer tok123")
        ⟨some (.s "X"), some (.n 3)⟩ itemStore0).2 1
        = some ⟨(some (JVal.s "X")).getD .null, parseFloat (some (.n 3))⟩
    ∧ ¬ (some (JVal.s "X")).getD .null = .s ""
    ∧ ¬ (some (JVal.s "X")).getD .null = .null :=
  items_invariant_c3_amended verifyTok0 (some "Bearer tok123") ⟨7, "a@b.com"⟩ (by decide)
    ⟨some (.s "X"), some (.n 3)⟩ itemStore0 1 (by decide) (by decide)

/-- C4: through the validator variant (`itemValidation` + `createItem`),
the body `(name empty, price -5)` is rejected 400 with a structured error
list containing both the empty-name and the negative-price violations
together, and no item is created in any store. -/
theorem create_item_validation_c4 : ∀ st : ItemStore,
    createItem ⟨some (.s ""), some (.n (-5))⟩ st
      = (.badRequest [⟨"name", "Name is required"⟩,
          ⟨"name", "Name must be between 1 and 100 characters"⟩,
          ⟨"price", "Price must be a positive number"⟩], st)
    ∧ (createItem ⟨some (.s ""), some (.n (-5))⟩ st).1.status = 400
    ∧ ⟨"name", "Name is required"⟩
        ∈ itemValidationErrors ⟨some (.s ""), some (.n (-5))⟩
    ∧ ⟨"price", "Price must be a positive number"⟩
        ∈ itemValidationErrors ⟨some (.s ""), some (.n (-5))⟩ := by
  intro st
  refine ⟨rfl, rfl, by decide, by decide⟩

/-- A one-user directory holding `a@b.com` with password hash `hash0`. -/
def userStore0 : UserStore := ⟨[(0, ⟨"a@b.com", "hash0", "2026-01-01"⟩)], 1⟩

/-- The same directory as `userStore0` except for the stored hash. -/
def userStore1 : UserStore := ⟨[(0, ⟨"a@b.com", "hash1", "2026-01-01"⟩)], 1⟩

/-- C5: a `POST /register` whose fields pass validation and whose email
equals a stored user's email answers 409, leaves the users collection
exactly as it was, and never invokes the password hasher. -/
theorem register_conflict_c5 (hashPassword : String → String)
    (generateToken : Nat → String → String) (now : String)
    (email password : String) (st : UserStore)
    (he : (email == "") = false) (hp : (password == "") = false)
    (hfmt : emailRegexTest email = true)
    (hlen : ¬ password.length < 6)
    (hdup : (findByEmail st email).isSome = true) :
    postRegister hashPassword generateToken now ⟨some email, some password⟩ st
      = ⟨.err 409 "User with this email already exists", st, false⟩ := by
  simp [postRegister, he, hp, hfmt, hdup, hlen]

/-- Witness for C5: re-registering `a@b.com` with a valid password leaves
the directory unchanged and unhashes nothing. -/
theorem register_conflict_c5_witness :
    postRegister (fun p => p ++ "#h") (fun i e => e ++ toString i) "2026-02-01"
      ⟨some "a@b.com", some "secret1"⟩ userStore0
      = ⟨.err 409 "User with this email already exists", userStore0, false⟩ :=
  register_conflict_c5 (fun p => p ++ "#h") (fun i e => e ++ toString i) "2026-02-01"
    "a@b.com" "secret1" userStore0 (by decide) (by decide) (by decide) (by decide) (by decide)

/-- C6: both login failure modes — unknown email, and known email with a
non-matching password — answer 401 with the identical generic error
message, so the body does not reveal whether the email exists. -/
theorem login_generic_message_c6 (comparePassword : String → String → Bool)
    (generateToken : Nat → String → String) (email password : String) (st : UserStore)
    (he : (email == "") = false) (hp : (password == "") = false) :
    (findByEmail st email = none →
      postLogin comparePassword generateToken ⟨some email, some password⟩ st
        = .err 401 "Invalid email or password")
    ∧ (∀ uid user, findByEmail st email = some (uid, user) →
        comparePassword password user.password = false →
        postLogin comparePassword generateToken ⟨some email, some password⟩ st
          = .err 401 "Invalid email or password") := by
  constructor
  · intro hnone
    simp [postLogin, he, hp, hnone]
  · intro uid user hfind hcmp
    simp [postLogin, he, hp, hfind, hcmp]

/-- Witness for C6: an unknown email and a wrong password for a known email
produce the very same 401 response. -/
theorem login_generic_message_c6_witness :
    postLogin (fun p h => (p ++ "#h") == h) (fun i e => e ++ toString i)
      ⟨some "b@c.com", some "secret1"⟩ userStore0 = .err 401 "Invalid email or password"
    ∧ postLogin (fun p h => (p ++ "#h") == h) (fun i e => e ++ toString i)
      ⟨some "a@b.com", some "wrong1"⟩ userStore0 = .err 401 "Invalid email or password" := by
  constructor
  · exact (login_generic_message_c6 (fun p h => (p ++ "#h") == h)
      (fun i e => e ++ toString i) "b@c.com" "secret1" userStore0
      (by decide) (by decide)).1 (by decide)
  · exact (login_generic_message_c6 (fun p h => (p ++ "#h") == h)
      (fun i e => e ++ toString i) "a@b.com" "wrong1" userStore0
      (by decide) (by decide)).2 0 ⟨"a@b.com", "hash0", "2026-01-01"⟩ (by decide) (by decide)

/-- Two user directories agreeing on ids and emails position by position,
differing at most in the stored password hashes. -/
def samePublicUsers (s1 s2 : UserStore) : Prop :=
  s1.docs.map (fun p => (p.1, p.2.email)) = s2.docs.map (fun p => (p.1, p.2.email))

theorem find?_email_map_eq (l1 l2 : List (Nat × UserDoc)) (e : String)
    (h : l1.map (fun p => (p.1, p.2.email)) = l2.map (fun p => (p.1, p.2.email))) :
    (l1.find? (fun p => p.2.email == e)).map (fun p => (p.1, p.2.email))
      = (l2.find? (fun p => p.2.email == e)).map (fun p => (p.1, p.2.email)) := by
  induction l1 generalizing l2 with
  | nil =>
    cases l2 with
    | nil => rfl
    | cons q l => simp at h
  | cons q1 t1 ih =>
    cases l2 with
    | nil => simp at h
    | cons q2 t2 =>
      simp only [List.map_cons, List.cons.injEq] at h
      obtain ⟨hq, ht⟩ := h
      have ha : q1.1 = q2.1 := (Prod.ext_iff.mp hq).1
      have hb : q1.2.email = q2.2.email := (Prod.ext_iff.mp hq).2
      by_cases hm : q1.2.email = e
      · rw [List.find?_cons_of_pos _ (by simp [hm]),
          List.find?_cons_of_pos _ (by simp [← hb, hm])]
        simp [ha, hb]
      · rw [List.find?_cons_of_neg _ (by simp [hm]),
          List.find?_cons_of_neg _ (by simp [← hb, hm])]
        exact ih t2 ht

/-- C10: the success bodies of `/register` and `/login` expose only id and
email — the stored password hash reaches no response.  The register response
is invariant under replacing the hasher, and the login response is invariant
under replacing every stored hash (given the password comparison decides the
same way), so no part of a response can depend on a hash value. -/
theorem response_hides_hash_c10 :
    (∀ (h1 h2 : String → String) (g : Nat → String → String) (now : String)
        (body : AuthBody) (st : UserStore),
      (postRegister h1 g now body st).resp = (postRegister h2 g now body st).resp)
    ∧ (∀ (cmp : String → String → Bool) (g : Nat → String → String)
        (e pw : String) (st1 st2 : UserStore),
      samePublicUsers st1 st2 →
      (∀ p1 p2, findByEmail st1 e = some p1 → findByEmail st2 e = some p2 →
        cmp pw p1.2.password = cmp pw p2.2.password) →
      postLogin cmp g ⟨some e, some pw⟩ st1 = postLogin cmp g ⟨some e, some pw⟩ st2) := by
  constructor
  · intro h1 h2 g now body st
    obtain ⟨be, bp⟩ := body
    cases be with
    | none => rfl
    | some e =>
      cases bp with
      | none => rfl
      | some p =>
        simp only [postRegister]
        split_ifs <;> rfl
  · intro cmp g e pw st1 st2 hpub hc
    have key : (findByEmail st1 e).map (fun p => (p.1, p.2.email))
        = (findByEmail st2 e).map (fun p => (p.1, p.2.email)) :=
      find?_email_map_eq st1.docs st2.docs e hpub
    cases hf1 : findByEmail st1 e with
    | none =>
      have hf2 : findByEmail st2 e = none := by
        rw [hf1] at key
        cases hx : findByEmail st2 e with
        | none => rfl
        | some q => rw [hx] at key; simp at key
      simp [postLogin, hf1, hf2]
    | some p1 =>
      rw [hf1] at key
      cases hx : findByEmail st2 e with
      | none => rw [hx] at key; simp at key
      | some p2 =>
        rw [hx] at key
        have key2 : (p1.1, p1.2.email) = (p2.1, p2.2.email) := by simpa using key
        have hcp := hc p1 p2 hf1 hx
        obtain ⟨uid1, u1⟩ := p1
        obtain ⟨uid2, u2⟩ := p2
        have ha2 : uid1 = uid2 := (Prod.ext_iff.mp key2).1
        have hb2 : u1.email = u2.email := (Prod.ext_iff.mp key2).2
        have hcp2 : cmp pw u1.password = cmp pw u2.password := hcp
        simp [postLogin, hf1, hx, ha2, hb2, hcp2]

/-- Witness for C10: the register response is unchanged when the hasher
changes, and the login response is unchanged when the stored hash changes. -/
theorem response_hides_hash_c10_witness :
    (postRegister (fun p => p ++ "#1") (fun i e => e ++ toString i) "t0"
        ⟨some "b@c.com", some "secret1"⟩ userStore0).resp
      = (postRegister (fun p => p ++ "#2") (fun i e => e ++ toString i) "t0"
        ⟨some "b@c.com", some "secret1"⟩ userStore0).resp
    ∧ postLogin (fun p h => (p ++ "#h") == h) (fun i e => e ++ toString i)
        ⟨some "a@b.com", some "pw1234"⟩ userStore0
      = postLogin (fun p h => (p ++ "#h") == h) (fun i e => e ++ toString i)
        ⟨some "a@b.com", some "pw1234"⟩ userStore1 := by
  constructor
  · exact response_hides_hash_c10.1 (fun p => p ++ "#1") (fun p => p ++ "#2")
      (fun i e => e ++ toString i) "t0" ⟨some "b@c.com", some "secret1"⟩ userStore0
  · refine response_hides_hash_c10.2 (fun p h => (p ++ "#h") == h)
      (fun i e => e ++ toString i) "a@b.com" "pw1234" userStore0 userStore1 rfl ?_
    intro p1 p2 e1 e2
    have h1 : (0, (⟨"a@b.com", "hash0", "2026-01-01"⟩ : UserDoc)) = p1 := Option.some.inj e1
    have h2 : (0, (⟨"a@b.com", "hash1", "2026-01-01"⟩ : UserDoc)) = p2 := Option.some.inj e2
    rw [← h1, ← h2]
    decide

end RestCrud
